import Mathlib

/-!
Shallow embedding of the Link block tool (`src/index.js`, class `ImageTool`).

The tool holds `_data = { link, linkData }`, renders either an input phase or
a preview phase keyed on `Object.keys(linkData).length`, and on a paste event
issues one fetch whose resolution either populates the preview (after a fixed
settle delay) or surfaces an error notification.

Modelling conventions:
  * JavaScript `undefined` for an object-valued slot is `Option.none`;
    `some m` is an object.  Field access on `undefined` throws, which we model
    with `Except String`.
  * The metadata object carries the three fields the code reads
    (`title`, `description`, `image.url`); `Object.keys(m).length` is the
    number of present fields.
  * JS truthiness: a string is truthy iff nonempty, a number is truthy iff
    nonzero, an object is always truthy, `undefined` is falsy.
  * The DOM is abstracted to the facts the code observably changes: whether
    the input holder is inserted before the preview node, the two progress
    classes, and the five preview fields.
  * Asynchrony is an event sequence: `paste` runs the synchronous body of
    `uploadByUrl`; `fetchResolve` / `fetchReject` are the promise callbacks;
    `settle` is the 500 ms timer inside `hideProgress` firing, which in the
    success path removes the input and calls `showLinkPreview`.
-/

namespace ImageTool

/-- The `image` sub-object of the fetched metadata: the code reads
`meta.image.url`. -/
structure ImageData where
  url : String
deriving DecidableEq, Repr

/-- Fetched link metadata: the fields `showLinkPreview` reads, each
independently optional (absent field = key not present on the JS object). -/
structure LinkMeta where
  title : Option String
  description : Option String
  image : Option ImageData
deriving DecidableEq, Repr

/-- The empty mapping `{}`. -/
def LinkMeta.empty : LinkMeta := ⟨none, none, none⟩

/-- Value of `Object.keys(m).length` for a metadata object restricted to the fields of
the data model. -/
def LinkMeta.keysLength (m : LinkMeta) : Nat :=
  (if m.title.isSome then 1 else 0) +
  (if m.description.isSome then 1 else 0) +
  (if m.image.isSome then 1 else 0)

/-- Internal `_data` of the tool.  `linkData : Option LinkMeta` because the
code can assign `response.meta`, which may be `undefined` (`none`); a `some`
value is a JS object (a mapping). -/
structure ToolData where
  link : String
  linkData : Option LinkMeta
deriving DecidableEq, Repr

/-- Incoming saved data handed to the constructor or the `data` setter; both
fields may be absent (`undefined`). -/
structure InputData where
  link : Option String
  linkData : Option LinkMeta
deriving DecidableEq, Repr

/-- JS truthiness of an optional string: `undefined` and `""` are falsy. -/
def truthyStr : Option String → Bool
  | some s => s ≠ ""
  | none => false

/-- JS truthiness of an optional number: `undefined` and `0` are falsy. -/
def truthyNum : Option Nat → Bool
  | some n => n ≠ 0
  | none => false

/-- JS `x || dflt` for an optional string value `x`. -/
def orStr (x : Option String) (dflt : String) : String :=
  match x with
  | some s => if s = "" then dflt else s
  | none => dflt

/-- JS `x || dflt` for an optional object value `x`: any object, even the
empty one, is truthy. -/
def orMeta (x : Option LinkMeta) (dflt : LinkMeta) : LinkMeta :=
  match x with
  | some m => m
  | none => dflt

/-- The `data` setter body (`set data`): full overwrite of both fields with
`data.link || ''` and `data.linkData || {}`. -/
def setDataFields (d : InputData) : ToolData :=
  { link := orStr d.link "", linkData := some (orMeta d.linkData LinkMeta.empty) }

/-- The `data` setter as invoked on an arbitrary JS value: on `undefined` or
`null` the body dereferences `data.link` and throws a `TypeError`. -/
def setDataJS (d : Option InputData) : Except String ToolData :=
  match d with
  | none => .error "TypeError: cannot read properties of undefined (reading link)"
  | some d => .ok (setDataFields d)

/-- The `endpoints` config object; the code reads `config.endpoints.byUrl`. -/
structure Endpoints where
  byUrl : Option String
deriving DecidableEq, Repr

/-- User config for the tool. -/
structure Config where
  endpoints : Option Endpoints
deriving DecidableEq, Repr

/-- The constructor: initializes `_data` to `{link: '', linkData: {}}` and
then runs `this.data = data`, so an `undefined`/`null` `data` argument makes
construction throw. -/
def constructJS (data : Option InputData) : Except String ToolData :=
  let _initial : ToolData := { link := "", linkData := some LinkMeta.empty }
  setDataJS data

/-- Observable DOM state of one tool instance.  `inputVisible` is whether the
input holder is inserted before the preview node; the progress flags are the
`link-tool__progress--loading` / `--loaded` classes; a `none` preview field
means the corresponding element was never written. -/
structure ViewState where
  inputVisible : Bool
  progressLoading : Bool
  progressLoaded : Bool
  previewImageBg : Option String
  previewTitle : Option String
  previewDescription : Option String
  anchorText : Option String
  anchorHref : Option String
deriving DecidableEq, Repr

/-- View right after `render` builds the wrapper, container, input holder and
preview skeleton, before the phase branch: nothing inserted or written yet. -/
def initialView : ViewState :=
  { inputVisible := false, progressLoading := false, progressLoaded := false,
    previewImageBg := none, previewTitle := none, previewDescription := none,
    anchorText := none, anchorHref := none }

/-- Body of `showLinkPreview(meta)`: sets the image background only under a truthy
`meta.image` (always truthy when present, being an object), title and
description only when truthy (nonempty string), and unconditionally writes the
anchor text and `href` from the current `_data.link`. -/
def showLinkPreview (link : String) (meta : LinkMeta) (v : ViewState) : ViewState :=
  let v := match meta.image with
    | some img => { v with previewImageBg := some ("url(" ++ img.url ++ ")") }
    | none => v
  let v := if truthyStr meta.title then { v with previewTitle := meta.title } else v
  let v := if truthyStr meta.description then
      { v with previewDescription := meta.description } else v
  { v with anchorText := some link, anchorHref := some link }

/-- Body of `render()`: if `Object.keys(_data.linkData).length` is truthy, show the
preview directly; otherwise insert the input holder before the (empty) preview
node.  Calling it with `linkData = undefined` would throw in `Object.keys`. -/
def render (d : ToolData) : Except String ViewState :=
  match d.linkData with
  | none => .error "TypeError: cannot convert undefined to object (Object.keys)"
  | some m =>
      if m.keysLength ≠ 0 then
        .ok (showLinkPreview d.link m initialView)
      else
        .ok { initialView with inputVisible := true }

/-- A notification issued through `api.notifier.show`. -/
structure Notification where
  message : String
  style : String
deriving DecidableEq, Repr

/-- A backend response: `success` is the boolean-like flag, `meta` the
metadata object; either may be absent. -/
structure Response where
  success : Option Nat
  meta : Option LinkMeta
deriving DecidableEq, Repr

/-- Truthiness of `response && response.success` in `onFetch`. -/
def truthyResponse : Option Response → Bool
  | some r => truthyNum r.success
  | none => false

/-- Whole-instance state: the tool data, the observable view, the stored
`byUrl` endpoint, the URLs of issued (not yet resolved) fetches, the pending
success continuation scheduled by `hideProgress().then(...)` (carrying the
captured `metaData`, possibly `undefined`), notifications issued so far, and
console log lines. -/
structure Component where
  data : ToolData
  view : ViewState
  endpointByUrl : Option String
  pendingFetch : List String
  pendingSettle : Option (Option LinkMeta)
  notifications : List Notification
  log : List String
deriving DecidableEq, Repr

/-- Fresh instance state after the constructor ran with result `d` and config
endpoint `ep` — before the host calls `render`. -/
def initComponent (d : ToolData) (ep : Option String) : Component :=
  { data := d, view := initialView, endpointByUrl := ep, pendingFetch := [],
    pendingSettle := none, notifications := [], log := [] }

/-- Running `render()` on the instance: rebuilds the view from `_data`. -/
def renderComponent (c : Component) : Except String Component :=
  (render c.data).map (fun v => { c with view := v })

/-- Body of `showProgress()`: add the loading class. -/
def showProgress (c : Component) : Component :=
  { c with view := { c.view with progressLoading := true } }

/-- Synchronous part of `hideProgress()`: swap the loading class for the
loaded class (the returned promise resolves 500 ms later). -/
def hideProgressSync (c : Component) : Component :=
  { c with view := { c.view with progressLoading := false, progressLoaded := true } }

/-- Issuing `ajax.get` for `url` against the stored endpoint. -/
def issueFetch (url : String) (c : Component) : Component :=
  { c with pendingFetch := c.pendingFetch ++ [url] }

/-- Body of `uploadByUrl(url)`: show the progress bar, store the url as `_data.link`,
then issue the fetch — all synchronous, in this order. -/
def uploadByUrl (url : String) (c : Component) : Component :=
  let c1 := showProgress c
  let c2 := { c1 with data := { c1.data with link := url } }
  issueFetch url c2

/-- Body of `fetchingFailed(errorText)`: log, show the fixed error notification, and
hide the progress bar (its settle promise is dropped, so no continuation). -/
def fetchingFailed (errorText : String) (c : Component) : Component :=
  let c1 := { c with log := c.log ++ ["Link Tool: data fetching because of " ++ errorText] }
  let c2 := { c1 with notifications := c1.notifications ++
      [{ message := "Can not get this link data, try another", style := "error" }] }
  hideProgressSync c2

/-- Body of `onFetch(response)`: on truthy `response && response.success`, store
`response.meta` into `_data.linkData` and schedule the settle continuation;
otherwise `fetchingFailed`. -/
def onFetch (r : Option Response) (c : Component) : Component :=
  if truthyResponse r then
    let metaData := (match r with | some resp => resp.meta | none => none)
    let c1 := { c with data := { c.data with linkData := metaData } }
    let c2 := hideProgressSync c1
    { c2 with pendingSettle := some metaData }
  else
    fetchingFailed "incorrect response" c

/-- External events driving one instance. -/
inductive Event where
  | setDataEv : Option InputData → Event
  | paste : String → Event
  | fetchResolve : Option Response → Event
  | fetchReject : String → Event
  | settle : Event
  | otherInput : Event
deriving DecidableEq, Repr

/-- One event step.  `paste` is the only input listener registered in
`makeInputHolder`; `otherInput` stands for any other DOM event on the input
(typing, enter, …), for which no handler exists.  `fetchReject` is the
`.catch` handler, whose whole body is `console.log('error', error)`.
`settle` fires the pending success continuation: remove the input holder and
run `showLinkPreview(metaData)` — which throws if `metaData` is
`undefined`. -/
def step (c : Component) : Event → Except String Component
  | .setDataEv d => (setDataJS d).map (fun t => { c with data := t })
  | .paste url => .ok (uploadByUrl url c)
  | .fetchResolve r => .ok (onFetch r c)
  | .fetchReject e => .ok { c with log := c.log ++ ["error " ++ e] }
  | .settle =>
      match c.pendingSettle with
      | none => .ok c
      | some mo =>
          match mo with
          | none => .error "TypeError: cannot read properties of undefined (reading image)"
          | some m =>
              .ok { c with
                view := showLinkPreview c.data.link m { c.view with inputVisible := false },
                pendingSettle := none }
  | .otherInput => .ok c

/-- Run a sequence of events. -/
def stepRun (c : Component) : List Event → Except String Component
  | [] => .ok c
  | e :: es => (step c e).bind (fun c1 => stepRun c1 es)

/-- Body of `save()`: returns `this.data` (the getter returns the live `_data`
reference) and performs no mutation; modelled as value plus unchanged
state. -/
def save (c : Component) : ToolData × Component :=
  (c.data, c)

/-- The `data` getter. -/
def getData (c : Component) : ToolData :=
  c.data

/-- Returns `true` iff the event is a paste on the input. -/
def Event.isPaste : Event → Bool
  | .paste _ => true
  | _ => false

/-- Returns `true` for events that cannot set `linkData` to `undefined`: every event
except a fetch resolution whose response has truthy `success` but no `meta`
object. -/
def metaSafe : Event → Bool
  | .fetchResolve (some r) => !truthyNum r.success || r.meta.isSome
  | _ => true

end ImageTool

namespace ImageTool

/-- A fresh instance constructed with `{link: '', linkData: {}}` and no
configured endpoint; base point for concrete runs. -/
def sampleComponent : Component :=
  initComponent { link := "", linkData := some LinkMeta.empty } none

/-- C2: for every string `L` and mapping `D`, after
`construct({link: L, linkData: D})` with no further interaction, `save()`
returns exactly `{link: L, linkData: D}`: the setter keeps a provided string
(including the empty one, whose `|| ''` default coincides with it) and keeps a
provided object (always truthy), and `save` returns the live `_data`. -/
theorem construct_save_roundtrip (L : String) (D : LinkMeta) :
    (constructJS (some { link := some L, linkData := some D })).map
      (fun d => (save (initComponent d none)).1) =
      .ok { link := L, linkData := some D } := by
  simp only [constructJS, setDataJS, setDataFields, orStr, orMeta, save, initComponent,
    Except.map]
  split <;> simp_all

/-- C7: assigning `data = {link: 'x'}` with no `linkData` then reading `data`
yields `{link: 'x', linkData: {}}`; the setter always overwrites both fields,
keeping present values (a nonempty string, any object) and defaulting absent
ones to `''` and `{}` (an empty-string `link` also falls to the default, which
equals it). -/
theorem setData_defaults (c : Component) (s : String) (m : LinkMeta) (hs : s ≠ "") :
    step c (.setDataEv (some { link := some "x", linkData := none })) =
      .ok { c with data := { link := "x", linkData := some LinkMeta.empty } } ∧
    getData { c with data := { link := "x", linkData := some LinkMeta.empty } } =
      { link := "x", linkData := some LinkMeta.empty } ∧
    setDataFields { link := some s, linkData := some m } = { link := s, linkData := some m } ∧
    setDataFields { link := none, linkData := none } =
      { link := "", linkData := some LinkMeta.empty } ∧
    setDataFields { link := some "", linkData := some m } = { link := "", linkData := some m } := by
  refine ⟨rfl, rfl, ?_, rfl, rfl⟩
  simp [setDataFields, orStr, orMeta, hs]

/-- Witness for C7 at `s = "y"`, `m = {}`, on a fresh instance. -/
theorem setData_defaults_witness :
    "y" ≠ "" ∧
    (step sampleComponent (.setDataEv (some { link := some "x", linkData := none })) =
      .ok { sampleComponent with data := { link := "x", linkData := some LinkMeta.empty } } ∧
    getData { sampleComponent with data := { link := "x", linkData := some LinkMeta.empty } } =
      { link := "x", linkData := some LinkMeta.empty } ∧
    setDataFields { link := some "y", linkData := some LinkMeta.empty } =
      { link := "y", linkData := some LinkMeta.empty } ∧
    setDataFields { link := none, linkData := none } =
      { link := "", linkData := some LinkMeta.empty } ∧
    setDataFields { link := some "", linkData := some LinkMeta.empty } =
      { link := "", linkData := some LinkMeta.empty }) :=
  ⟨by decide, setData_defaults sampleComponent "y" LinkMeta.empty (by decide)⟩

/-- C9: `save()` performs no mutation and two consecutive calls return equal
values: the second component of `save` is the unchanged state and the value
read is the same both times (it is the live `_data`, also what the `data`
getter returns). -/
theorem save_idempotent (c : Component) :
    (save c).2 = c ∧
    (save ((save c).2)).1 = (save c).1 ∧
    getData ((save c).2) = (save c).1 := by
  exact ⟨rfl, rfl, rfl⟩

/-- C10: construction throws a `TypeError` when the `data` argument is absent
(`undefined`/`null`), because the setter dereferences `data.link`; with any
present object it succeeds, applying the `''`/`{}` defaults only to absent
fields. -/
theorem construct_requires_object (d : InputData) :
    constructJS none =
      .error "TypeError: cannot read properties of undefined (reading link)" ∧
    (constructJS (some d)).toOption.isSome = true ∧
    constructJS (some { link := none, linkData := none }) =
      .ok { link := "", linkData := some LinkMeta.empty } ∧
    constructJS (some { link := some "x", linkData := none }) =
      .ok { link := "x", linkData := some LinkMeta.empty } := by
  exact ⟨rfl, rfl, rfl, rfl⟩

end ImageTool

namespace ImageTool

/-- Lemma: `showLinkPreview` never touches the input holder: it only writes preview
elements. -/
theorem showLinkPreview_inputVisible (link : String) (m : LinkMeta) (v : ViewState) :
    (showLinkPreview link m v).inputVisible = v.inputVisible := by
  cases him : m.image <;> cases ht : truthyStr m.title <;>
    cases hd : truthyStr m.description <;>
    simp [showLinkPreview, him, ht, hd]

/-- C3: `render()` keys the phase on emptiness of `linkData`: with a nonzero
key count it renders the Previewed phase (preview populated via
`showLinkPreview`, input holder not inserted), and with an empty mapping it
renders the Empty phase (input holder inserted before the preview node, whose
fields are all untouched in `initialView`). -/
theorem render_phase (d : ToolData) (m : LinkMeta) (h : d.linkData = some m) :
    (m.keysLength ≠ 0 →
      render d = .ok (showLinkPreview d.link m initialView) ∧
      (showLinkPreview d.link m initialView).inputVisible = false) ∧
    (m.keysLength = 0 →
      render d = .ok { initialView with inputVisible := true }) := by
  constructor
  · intro hk
    exact ⟨by simp [render, h, hk], by rw [showLinkPreview_inputVisible]; rfl⟩
  · intro hk
    simp [render, h, hk]

/-- Witness for C3: a title-only mapping renders the Previewed phase with no
input inserted, and the empty mapping renders the Empty phase. -/
theorem render_phase_witness :
    (ToolData.mk "" (some ⟨some "T", none, none⟩)).linkData = some ⟨some "T", none, none⟩ ∧
    (((⟨some "T", none, none⟩ : LinkMeta).keysLength ≠ 0 →
      render ⟨"", some ⟨some "T", none, none⟩⟩ =
        .ok (showLinkPreview (ToolData.mk "" (some ⟨some "T", none, none⟩)).link
          ⟨some "T", none, none⟩ initialView) ∧
      (showLinkPreview (ToolData.mk "" (some ⟨some "T", none, none⟩)).link
        ⟨some "T", none, none⟩ initialView).inputVisible = false) ∧
    ((⟨some "T", none, none⟩ : LinkMeta).keysLength = 0 →
      render ⟨"", some ⟨some "T", none, none⟩⟩ = .ok { initialView with inputVisible := true })) ∧
    render ⟨"", some LinkMeta.empty⟩ = .ok { initialView with inputVisible := true } :=
  ⟨rfl, render_phase ⟨"", some ⟨some "T", none, none⟩⟩ ⟨some "T", none, none⟩ rfl,
    (render_phase ⟨"", some LinkMeta.empty⟩ LinkMeta.empty rfl).2 rfl⟩

/-- C1 (amended): `link` is a string by construction, and `linkData` stays a
mapping (`isSome`) under construction, the setter, paste, failed or rejected
fetches, and the settle timer — and under a successful fetch provided the
response carries a `meta` object (`metaSafe`).  (The original claim, with no
`metaSafe` proviso, fails: see the counterexample.) -/
theorem linkData_always_mapping (c c' : Component) (e : Event) (inp : InputData)
    (h1 : c.data.linkData.isSome = true) (h2 : metaSafe e = true)
    (h3 : step c e = .ok c') :
    c'.data.linkData.isSome = true ∧
    (constructJS (some inp)).map (fun d => d.linkData.isSome) = .ok true := by
  refine ⟨?_, by simp [constructJS, setDataJS, setDataFields, Except.map]⟩
  cases e with
  | setDataEv d =>
      cases d with
      | none => simp [step, setDataJS, Except.map] at h3
      | some d =>
          simp [step, setDataJS, Except.map] at h3
          rw [← h3]
          simp [setDataFields]
  | paste url =>
      simp [step, uploadByUrl, issueFetch, showProgress] at h3
      rw [← h3]
      exact h1
  | fetchResolve r =>
      cases r with
      | none =>
          simp [step, onFetch, truthyResponse, fetchingFailed, hideProgressSync] at h3
          rw [← h3]
          exact h1
      | some resp =>
          by_cases hs : truthyNum resp.success = true
          · simp [step, onFetch, truthyResponse, hs, hideProgressSync] at h3
            simp [metaSafe, hs] at h2
            rw [← h3]
            simpa using h2
          · simp [step, onFetch, truthyResponse, hs, fetchingFailed, hideProgressSync] at h3
            rw [← h3]
            exact h1
  | fetchReject e =>
      simp [step] at h3
      rw [← h3]
      exact h1
  | settle =>
      cases hp : c.pendingSettle with
      | none =>
          simp [step, hp] at h3
          rw [← h3]
          exact h1
      | some mo =>
          cases mo with
          | none => simp [step, hp] at h3
          | some m =>
              simp [step, hp] at h3
              rw [← h3]
              exact h1
  | otherInput =>
      simp [step] at h3
      rw [← h3]
      exact h1

/-- Witness for C1 (amended) at a successful fetch carrying an (empty) meta
object, from a fresh instance. -/
theorem linkData_always_mapping_witness :
    sampleComponent.data.linkData.isSome = true ∧
    metaSafe (.fetchResolve (some { success := some 1, meta := some LinkMeta.empty })) = true ∧
    step sampleComponent
      (.fetchResolve (some { success := some 1, meta := some LinkMeta.empty })) =
      .ok { sampleComponent with
            data := { link := "", linkData := some LinkMeta.empty },
            view := { initialView with progressLoading := false, progressLoaded := true },
            pendingSettle := some (some LinkMeta.empty) } ∧
    (({ sampleComponent with
        data := { link := "", linkData := some LinkMeta.empty },
        view := { initialView with progressLoading := false, progressLoaded := true },
        pendingSettle := some (some LinkMeta.empty) } : Component).data.linkData.isSome = true ∧
      (constructJS (some { link := none, linkData := none })).map
        (fun d => d.linkData.isSome) = .ok true) :=
  ⟨rfl, rfl, rfl,
    linkData_always_mapping sampleComponent
      { sampleComponent with
        data := { link := "", linkData := some LinkMeta.empty },
        view := { initialView with progressLoading := false, progressLoaded := true },
        pendingSettle := some (some LinkMeta.empty) }
      (.fetchResolve (some { success := some 1, meta := some LinkMeta.empty }))
      { link := none, linkData := none } rfl rfl rfl⟩

/-- Counterexample for C1 as stated: pasting a URL and then receiving
`{success: 1}` with no `meta` field leaves `linkData = undefined` — not a
mapping. -/
theorem linkData_mapping_cex :
    ((renderComponent sampleComponent).bind
      (fun c => stepRun c
        [Event.paste "http://a.com",
         Event.fetchResolve (some { success := some 1, meta := none })])).map
      (fun c => c.data.linkData) = Except.ok none := by
  rfl

end ImageTool

namespace ImageTool

/-- C4: on a fetch response with truthy `success`, `linkData` is replaced by
the response's `meta` object immediately and the progress bar swaps to
loaded; when the settle timer fires, the input holder is removed and the
preview is populated by `showLinkPreview` from the current `link`; field by
field, the image background is set only if `image` is present (using
`image.url`), title and description are left untouched when absent, and the
anchor text and `href` are always set to the current `link`, even when it is
the empty string. -/
theorem fetch_success_preview (c : Component) (n : Nat) (m : LinkMeta)
    (img : ImageData) (lnk : String) (v : ViewState) (hn : n ≠ 0) :
    step c (.fetchResolve (some { success := some n, meta := some m })) =
      .ok { c with
            data := { c.data with linkData := some m },
            view := { c.view with progressLoading := false, progressLoaded := true },
            pendingSettle := some (some m) } ∧
    step { c with
           data := { c.data with linkData := some m },
           view := { c.view with progressLoading := false, progressLoaded := true },
           pendingSettle := some (some m) } .settle =
      .ok { c with
            data := { c.data with linkData := some m },
            view := showLinkPreview c.data.link m { c.view with progressLoading := false, progressLoaded := true, inputVisible := false },
            pendingSettle := none } ∧
    (showLinkPreview lnk m v).anchorText = some lnk ∧
    (showLinkPreview lnk m v).anchorHref = some lnk ∧
    (m.image = some img →
      (showLinkPreview lnk m v).previewImageBg = some ("url(" ++ img.url ++ ")")) ∧
    (m.image = none → (showLinkPreview lnk m v).previewImageBg = v.previewImageBg) ∧
    (m.title = none → (showLinkPreview lnk m v).previewTitle = v.previewTitle) ∧
    (m.description = none →
      (showLinkPreview lnk m v).previewDescription = v.previewDescription) := by
  refine ⟨?_, ?_, ?_, ?_, ?_, ?_, ?_, ?_⟩
  · simp [step, onFetch, truthyResponse, truthyNum, hn, hideProgressSync]
  · simp [step]
  · rfl
  · rfl
  · intro h
    cases ht : truthyStr m.title <;> cases hd : truthyStr m.description <;>
      simp [showLinkPreview, h, ht, hd]
  · intro h
    cases ht : truthyStr m.title <;> cases hd : truthyStr m.description <;>
      simp [showLinkPreview, h, ht, hd]
  · intro h
    cases him : m.image <;> simp [showLinkPreview, h, him, truthyStr] <;> split <;> rfl
  · intro h
    cases him : m.image <;> simp [showLinkPreview, h, him, truthyStr] <;> split <;> rfl

/-- Witness for C4: a successful response with `meta = {title: "Example",
image: {url: "http://img"}}` on a fresh instance, previewed with the empty
link. -/
theorem fetch_success_preview_witness :
    (1 : Nat) ≠ 0 ∧
    (step sampleComponent
      (.fetchResolve (some { success := some 1, meta := some ⟨some "Example", none, some ⟨"http://img"⟩⟩ })) =
      .ok { sampleComponent with
            data := { sampleComponent.data with linkData := some ⟨some "Example", none, some ⟨"http://img"⟩⟩ },
            view := { sampleComponent.view with progressLoading := false, progressLoaded := true },
            pendingSettle := some (some ⟨some "Example", none, some ⟨"http://img"⟩⟩) } ∧
    step { sampleComponent with
           data := { sampleComponent.data with linkData := some ⟨some "Example", none, some ⟨"http://img"⟩⟩ },
           view := { sampleComponent.view with progressLoading := false, progressLoaded := true },
           pendingSettle := some (some ⟨some "Example", none, some ⟨"http://img"⟩⟩) } .settle =
      .ok { sampleComponent with
            data := { sampleComponent.data with linkData := some ⟨some "Example", none, some ⟨"http://img"⟩⟩ },
            view := showLinkPreview sampleComponent.data.link ⟨some "Example", none, some ⟨"http://img"⟩⟩ { sampleComponent.view with progressLoading := false, progressLoaded := true, inputVisible := false },
            pendingSettle := none } ∧
    (showLinkPreview "" ⟨some "Example", none, some ⟨"http://img"⟩⟩ initialView).anchorText =
      some "" ∧
    (showLinkPreview "" ⟨some "Example", none, some ⟨"http://img"⟩⟩ initialView).anchorHref =
      some "" ∧
    ((⟨some "Example", none, some ⟨"http://img"⟩⟩ : LinkMeta).image = some ⟨"http://img"⟩ →
      (showLinkPreview "" ⟨some "Example", none, some ⟨"http://img"⟩⟩
        initialView).previewImageBg = some ("url(" ++ ImageData.url ⟨"http://img"⟩ ++ ")")) ∧
    ((⟨some "Example", none, some ⟨"http://img"⟩⟩ : LinkMeta).image = none →
      (showLinkPreview "" ⟨some "Example", none, some ⟨"http://img"⟩⟩
        initialView).previewImageBg = initialView.previewImageBg) ∧
    ((⟨some "Example", none, some ⟨"http://img"⟩⟩ : LinkMeta).title = none →
      (showLinkPreview "" ⟨some "Example", none, some ⟨"http://img"⟩⟩
        initialView).previewTitle = initialView.previewTitle) ∧
    ((⟨some "Example", none, some ⟨"http://img"⟩⟩ : LinkMeta).description = none →
      (showLinkPreview "" ⟨some "Example", none, some ⟨"http://img"⟩⟩
        initialView).previewDescription = initialView.previewDescription)) :=
  ⟨by decide,
    fetch_success_preview sampleComponent 1 ⟨some "Example", none, some ⟨"http://img"⟩⟩
      ⟨"http://img"⟩ "" initialView (by decide)⟩

end ImageTool

namespace ImageTool

/-- C5: on a fetch response whose `success` flag is falsy or missing (or a
missing response object), `onFetch` takes the `fetchingFailed` path: exactly
one notification with the fixed message and style `error` is appended,
`_data` (in particular `linkData`) is unchanged, the input stays as it was
(still visible), the loading class is removed, no settle continuation is
scheduled, and no preview element is written. -/
theorem fetch_failure_notifies (c : Component) (r : Option Response)
    (h : truthyResponse r = false) :
    step c (.fetchResolve r) = .ok (fetchingFailed "incorrect response" c) ∧
    (fetchingFailed "incorrect response" c).notifications =
      c.notifications ++
        [{ message := "Can not get this link data, try another", style := "error" }] ∧
    (fetchingFailed "incorrect response" c).data = c.data ∧
    (fetchingFailed "incorrect response" c).view.inputVisible = c.view.inputVisible ∧
    (fetchingFailed "incorrect response" c).view.progressLoading = false ∧
    (fetchingFailed "incorrect response" c).pendingSettle = c.pendingSettle ∧
    (fetchingFailed "incorrect response" c).view.previewImageBg = c.view.previewImageBg ∧
    (fetchingFailed "incorrect response" c).view.previewTitle = c.view.previewTitle ∧
    (fetchingFailed "incorrect response" c).view.previewDescription = c.view.previewDescription ∧
    (fetchingFailed "incorrect response" c).view.anchorText = c.view.anchorText ∧
    (fetchingFailed "incorrect response" c).view.anchorHref = c.view.anchorHref := by
  refine ⟨?_, rfl, rfl, rfl, rfl, rfl, rfl, rfl, rfl, rfl, rfl⟩
  simp [step, onFetch, h]

/-- Witness for C5 at the response `{success: 0}` on a fresh instance. -/
theorem fetch_failure_notifies_witness :
    truthyResponse (some { success := some 0, meta := none }) = false ∧
    (step sampleComponent (.fetchResolve (some { success := some 0, meta := none })) =
      .ok (fetchingFailed "incorrect response" sampleComponent) ∧
    (fetchingFailed "incorrect response" sampleComponent).notifications =
      sampleComponent.notifications ++
        [{ message := "Can not get this link data, try another", style := "error" }] ∧
    (fetchingFailed "incorrect response" sampleComponent).data = sampleComponent.data ∧
    (fetchingFailed "incorrect response" sampleComponent).view.inputVisible =
      sampleComponent.view.inputVisible ∧
    (fetchingFailed "incorrect response" sampleComponent).view.progressLoading = false ∧
    (fetchingFailed "incorrect response" sampleComponent).pendingSettle =
      sampleComponent.pendingSettle ∧
    (fetchingFailed "incorrect response" sampleComponent).view.previewImageBg =
      sampleComponent.view.previewImageBg ∧
    (fetchingFailed "incorrect response" sampleComponent).view.previewTitle =
      sampleComponent.view.previewTitle ∧
    (fetchingFailed "incorrect response" sampleComponent).view.previewDescription =
      sampleComponent.view.previewDescription ∧
    (fetchingFailed "incorrect response" sampleComponent).view.anchorText =
      sampleComponent.view.anchorText ∧
    (fetchingFailed "incorrect response" sampleComponent).view.anchorHref =
      sampleComponent.view.anchorHref) :=
  ⟨rfl, fetch_failure_notifies sampleComponent (some { success := some 0, meta := none }) rfl⟩

/-- C6 (amended): a rejected fetch is caught by the `.catch` handler, so the
step succeeds (no exception propagates) and its only effect is a console log:
the view — including the loading indicator and all preview elements — the
data and the pending continuation are untouched.  In particular the loading
indicator is NOT cleared, contrary to the original claim (see the
counterexample). -/
theorem transport_error_caught (c : Component) (e : String) :
    step c (.fetchReject e) = .ok { c with log := c.log ++ ["error " ++ e] } ∧
    ({ c with log := c.log ++ ["error " ++ e] } : Component).view = c.view ∧
    ({ c with log := c.log ++ ["error " ++ e] } : Component).data = c.data ∧
    ({ c with log := c.log ++ ["error " ++ e] } : Component).pendingSettle = c.pendingSettle := by
  exact ⟨rfl, rfl, rfl, rfl⟩

/-- Counterexample for C6 as stated: render, paste (loading indicator goes
on), then the fetch rejects; the indicator is still on afterwards — the catch
handler only logs and never calls `hideProgress`. -/
theorem transport_error_not_cleared_cex :
    ((renderComponent sampleComponent).bind
      (fun c => stepRun c [Event.paste "http://a.com"])).map
      (fun c => c.view.progressLoading) = Except.ok true ∧
    ((renderComponent sampleComponent).bind
      (fun c => stepRun c [Event.paste "http://a.com", Event.fetchReject "network failure"])).map
      (fun c => c.view.progressLoading) = Except.ok true := by
  exact ⟨rfl, rfl⟩

/-- C8: the paste handler reads the clipboard text and runs `uploadByUrl`,
which synchronously shows the loading indicator, stores the text as
`_data.link`, and only then issues the fetch (the state handed to
`issueFetch` already has the indicator on); and no event other than a paste
ever issues a fetch. -/
theorem paste_triggers_upload (c c' : Component) (url : String) (e : Event)
    (hne : e.isPaste = false) (hstep : step c e = .ok c') :
    step c (.paste url) = .ok (uploadByUrl url c) ∧
    uploadByUrl url c =
      issueFetch url { showProgress c with data := { (showProgress c).data with link := url } } ∧
    ({ showProgress c with data := { (showProgress c).data with link := url } } : Component).view.progressLoading = true ∧
    (uploadByUrl url c).data.link = url ∧
    (uploadByUrl url c).view.progressLoading = true ∧
    (uploadByUrl url c).pendingFetch = c.pendingFetch ++ [url] ∧
    c'.pendingFetch = c.pendingFetch := by
  refine ⟨rfl, rfl, rfl, rfl, rfl, rfl, ?_⟩
  cases e with
  | setDataEv d =>
      cases d with
      | none => simp [step, setDataJS, Except.map] at hstep
      | some d =>
          simp [step, setDataJS, Except.map] at hstep
          rw [← hstep]
  | paste u => simp [Event.isPaste] at hne
  | fetchResolve r =>
      simp [step] at hstep
      rw [← hstep]
      cases r with
      | none => simp [onFetch, truthyResponse, fetchingFailed, hideProgressSync]
      | some resp =>
          by_cases hs : truthyNum resp.success = true <;>
            simp [onFetch, truthyResponse, hs, fetchingFailed, hideProgressSync]
  | fetchReject s =>
      simp [step] at hstep
      rw [← hstep]
  | settle =>
      cases hp : c.pendingSettle with
      | none =>
          simp [step, hp] at hstep
          rw [← hstep]
      | some mo =>
          cases mo with
          | none => simp [step, hp] at hstep
          | some m =>
              simp [step, hp] at hstep
              rw [← hstep]
  | otherInput =>
      simp [step] at hstep
      rw [← hstep]

/-- Witness for C8: pasting `"http://a.com"` on a fresh instance, with
`otherInput` as the non-paste event issuing no fetch. -/
theorem paste_triggers_upload_witness :
    Event.isPaste .otherInput = false ∧
    step sampleComponent .otherInput = .ok sampleComponent ∧
    (step sampleComponent (.paste "http://a.com") = .ok (uploadByUrl "http://a.com" sampleComponent) ∧
    uploadByUrl "http://a.com" sampleComponent =
      issueFetch "http://a.com" { showProgress sampleComponent with data := { (showProgress sampleComponent).data with link := "http://a.com" } } ∧
    ({ showProgress sampleComponent with data := { (showProgress sampleComponent).data with link := "http://a.com" } } : Component).view.progressLoading = true ∧
    (uploadByUrl "http://a.com" sampleComponent).data.link = "http://a.com" ∧
    (uploadByUrl "http://a.com" sampleComponent).view.progressLoading = true ∧
    (uploadByUrl "http://a.com" sampleComponent).pendingFetch =
      sampleComponent.pendingFetch ++ ["http://a.com"] ∧
    sampleComponent.pendingFetch = sampleComponent.pendingFetch) :=
  ⟨rfl, rfl,
    paste_triggers_upload sampleComponent sampleComponent "http://a.com" .otherInput rfl rfl⟩

end ImageTool
